import Mathlib

/-!
Verification of the private-chat conversation directory in
`src/services/posts.js` (the "Conversation Key & Directory Cache" component).

The JavaScript under verification:

* `addToPrivateChatCache(senderId, receiverId, value)` /
  `getFromPrivateChatCache(senderId, receiverId)` compute
  `key = [senderId, receiverId].sort().join('_')` and read/write the
  module-level object `privateChatCache`.
* `fetchPrivateChat` sorts the two ids and queries the `private_chats`
  table for an exact match on `(user_id1, user_id2)`, returning
  `data[0] ?? null`, throwing on a store error.
* `createPrivateChat` sorts the two ids, inserts `{user_id1, user_id2}`
  and returns the created row, throwing on a store error.
* `fetchOrCreatePrivateChat` checks the cache, then fetches, then creates,
  and finally caches the resolved chat.
* `fetchLastPrivateChatMessages` resolves the chat, then queries
  `private_chat_messages` filtered by `chat_id`.
* `subscribeToNewPosts` wraps its realtime callback invocation in
  `try/catch`; `subscribeToNewPrivateChatMessages` invokes its callback
  directly with no `try/catch`.

The external Supabase store is modelled as explicit session state: the
`private_chats` table contents, a next row id, failure-injection fields for
query/insert errors, a `pendingConcurrent` row that a concurrent client
inserts between our select and our insert (the §5 race), and counters of
store round trips.  JavaScript's default array sort compares strings
lexicographically; we model it with `String`'s lexicographic order (the
UTF-16 vs. code-point difference is irrelevant for the identifier spaces
involved).
-/

/-- Row of the `private_chats` table: a system-assigned `id` and the two
participant ids stored in canonical (sorted) order. -/
structure PrivateChat where
  id : Nat
  user_id1 : String
  user_id2 : String
deriving DecidableEq, Repr

/-- Row of the `private_chat_messages` table. -/
structure PrivateChatMessage where
  chat_id : Nat
  sender_id : String
  content : String
deriving DecidableEq, Repr

/-- Lexicographic comparison of character lists: the order JavaScript's
default array sort applies to strings. -/
def charListLe : List Char → List Char → Bool
  | [], _ => true
  | _ :: _, [] => false
  | a :: as, b :: bs =>
    if a < b then true
    else if b < a then false
    else charListLe as bs

/-- Lexicographic `≤` on strings, as JavaScript's `<=` compares strings. -/
def strLe (a b : String) : Bool :=
  charListLe a.data b.data

/-- Models `[senderId, receiverId].sort()`: JavaScript's default sort on a
two-element string array — lexicographic comparison, stable. -/
def sortPair (senderId receiverId : String) : String × String :=
  if strLe senderId receiverId then (senderId, receiverId) else (receiverId, senderId)

/-- Models `[senderId, receiverId].sort().join('_')` — the canonical
conversation key used by `addToPrivateChatCache` and
`getFromPrivateChatCache`. -/
def canonicalKey (senderId receiverId : String) : String :=
  (sortPair senderId receiverId).1 ++ "_" ++ (sortPair senderId receiverId).2

/-- The module-level `privateChatCache` object, modelled as an association
list; property assignment overwrites, so the newest binding shadows older
ones and lookup takes the first match. -/
abbrev ChatCache := List (String × PrivateChat)

/-- Models the read `privateChatCache[key] ?? null`. -/
def cacheGet (cache : ChatCache) (key : String) : Option PrivateChat :=
  match cache.find? (fun e => e.1 == key) with
  | some e => some e.2
  | none => none

/-- Models `addToPrivateChatCache(senderId, receiverId, value)`. -/
def addToPrivateChatCache (cache : ChatCache) (senderId receiverId : String)
    (value : PrivateChat) : ChatCache :=
  (canonicalKey senderId receiverId, value) :: cache

/-- Models `getFromPrivateChatCache(senderId, receiverId)`. -/
def getFromPrivateChatCache (cache : ChatCache) (senderId receiverId : String) :
    Option PrivateChat :=
  cacheGet cache (canonicalKey senderId receiverId)

/-- State threaded through one client session: the cache plus the external
store (`private_chats` and `private_chat_messages` contents), failure
injection for store calls, the row a concurrent client inserts between our
select and our insert, and counters of store round trips. -/
structure Session where
  cache : ChatCache
  chats : List PrivateChat
  nextId : Nat
  messages : List PrivateChatMessage
  pendingConcurrent : Option PrivateChat
  fetchFailure : Option String
  insertFailure : Option String
  messagesFetchFailure : Option String
  fetchCount : Nat
  insertCount : Nat
deriving DecidableEq, Repr

/-- A fresh session: empty cache, empty store, no injected failures. -/
def emptySession : Session :=
  { cache := [], chats := [], nextId := 0, messages := [],
    pendingConcurrent := none, fetchFailure := none, insertFailure := none,
    messagesFetchFailure := none, fetchCount := 0, insertCount := 0 }

/-- One `supabase.from('private_chats').select().eq('user_id1', u1)
.eq('user_id2', u2)` round trip; on success the caller sees
`data[0] ?? null`.  `fetchFailure` injects a store error. -/
def storeFetch (s : Session) (u1 u2 : String) :
    Except String (Option PrivateChat) × Session :=
  let s1 := { s with fetchCount := s.fetchCount + 1 }
  match s1.fetchFailure with
  | some e => (Except.error e, s1)
  | none =>
      (Except.ok ((s1.chats.filter
        (fun c => c.user_id1 == u1 && c.user_id2 == u2)).head?), s1)

/-- One `supabase.from('private_chats').insert({user_id1, user_id2})
.select()` round trip.  If another client has a row in flight
(`pendingConcurrent`), it lands first; `insertFailure` injects a store
error (e.g. a uniqueness violation raised against the concurrent row). -/
def storeInsert (s : Session) (u1 u2 : String) :
    Except String PrivateChat × Session :=
  let s1 :=
    match s.pendingConcurrent with
    | some c => { s with chats := s.chats ++ [c], pendingConcurrent := none }
    | none => s
  let s2 := { s1 with insertCount := s1.insertCount + 1 }
  match s2.insertFailure with
  | some e => (Except.error e, s2)
  | none =>
      let chat : PrivateChat := { id := s2.nextId, user_id1 := u1, user_id2 := u2 }
      (Except.ok chat, { s2 with chats := s2.chats ++ [chat], nextId := s2.nextId + 1 })

/-- Models `fetchPrivateChat(senderId, receiverId)`: sort the ids, query
the store, throw on error, return `data[0] ?? null`. -/
def fetchPrivateChat (s : Session) (senderId receiverId : String) :
    Except String (Option PrivateChat) × Session :=
  storeFetch s (sortPair senderId receiverId).1 (sortPair senderId receiverId).2

/-- Models `createPrivateChat(senderId, receiverId)`: sort the ids, insert
the canonical pair, throw on error, return the created row. -/
def createPrivateChat (s : Session) (senderId receiverId : String) :
    Except String PrivateChat × Session :=
  storeInsert s (sortPair senderId receiverId).1 (sortPair senderId receiverId).2

/-- Models `fetchOrCreatePrivateChat(senderId, receiverId)`: cache check, then
fetch, then create, then cache the result.  A thrown store error
propagates (`Except.error`) and skips the cache update. -/
def fetchOrCreatePrivateChat (s : Session) (senderId receiverId : String) :
    Except String PrivateChat × Session :=
  match getFromPrivateChatCache s.cache senderId receiverId with
  | some cached => (Except.ok cached, s)
  | none =>
      match fetchPrivateChat s senderId receiverId with
      | (Except.error e, s1) => (Except.error e, s1)
      | (Except.ok (some chat), s1) =>
          (Except.ok chat,
            { s1 with cache := addToPrivateChatCache s1.cache senderId receiverId chat })
      | (Except.ok none, s1) =>
          match createPrivateChat s1 senderId receiverId with
          | (Except.error e, s2) => (Except.error e, s2)
          | (Except.ok chat, s2) =>
              (Except.ok chat,
                { s2 with cache := addToPrivateChatCache s2.cache senderId receiverId chat })

/-- Models `fetchLastPrivateChatMessages(senderId, receiverId)`: resolve the chat,
then `select` from `private_chat_messages` filtered by `chat_id`; throw on
either failure, otherwise return the rows. -/
def fetchLastPrivateChatMessages (s : Session) (senderId receiverId : String) :
    Except String (List PrivateChatMessage) × Session :=
  match fetchOrCreatePrivateChat s senderId receiverId with
  | (Except.error e, s1) => (Except.error e, s1)
  | (Except.ok privateChat, s1) =>
      match s1.messagesFetchFailure with
      | some e => (Except.error e, s1)
      | none =>
          (Except.ok (s1.messages.filter (fun m => m.chat_id == privateChat.id)), s1)

/-- The realtime handler registered by `subscribeToNewPosts`:
`try { callback(payload.new) } catch (err) { console.error(...) }` — a
callback exception is caught and logged, never re-thrown. -/
def subscribeToNewPostsHandler {α : Type} (callback : α → Except String Unit)
    (payloadNew : α) : Except String Unit :=
  match callback payloadNew with
  | Except.ok _ => Except.ok ()
  | Except.error _ => Except.ok ()

/-- The realtime handler registered by `subscribeToNewPrivateChatMessages`:
`payload => { callback(payload.new); }` — the callback is invoked with no
`try/catch`, so whatever it throws escapes the handler. -/
def privateChatMessagesHandler {α : Type} (callback : α → Except String Unit)
    (payloadNew : α) : Except String Unit :=
  callback payloadNew

/-- The Canonicalizer as the SPEC (§4.1) describes it — rejecting
empty/absent identifiers with `InvalidArgument` — stated only to compare
with the code's `canonicalKey`, which performs no such validation. -/
def canonicalKeySpec (a b : String) : Except String String :=
  if a.isEmpty || b.isEmpty then Except.error "InvalidArgument"
  else Except.ok (canonicalKey a b)

/-- The session state reached by resolving ("U1", "U2") from a fresh
session: the created chat row 0 is in the store and in the cache, after one
store query and one store insertion. -/
def sessionAfterFirst : Session :=
  { cache := [("U1_U2", { id := 0, user_id1 := "U1", user_id2 := "U2" })],
    chats := [{ id := 0, user_id1 := "U1", user_id2 := "U2" }],
    nextId := 1, messages := [], pendingConcurrent := none,
    fetchFailure := none, insertFailure := none, messagesFetchFailure := none,
    fetchCount := 1, insertCount := 1 }

/-- A fresh session whose store rejects the next select with a network
error. -/
def failSession : Session :=
  { emptySession with fetchFailure := some "net down" }

/-- The §5 race at its worst: the store is empty when we look, a concurrent
client has the row for ("U1", "U2") in flight, and our own insert is
rejected with a uniqueness violation. -/
def raceSession : Session :=
  { emptySession with
    pendingConcurrent := some { id := 7, user_id1 := "U1", user_id2 := "U2" },
    insertFailure := some "duplicate key" }

/-- State of `raceSession` after the failed resolution: the concurrent row is now in
the store, our insert was rejected, and only the one initial query ran. -/
def raceAfterInsert : Session :=
  { raceSession with
    chats := [{ id := 7, user_id1 := "U1", user_id2 := "U2" }],
    pendingConcurrent := none, fetchCount := 1, insertCount := 1 }

/-! ## Helper lemmas -/

/-- Lexicographic comparison is total. -/
theorem charListLe_total (a b : List Char) :
    charListLe a b = true ∨ charListLe b a = true := by
  induction a generalizing b with
  | nil => left; rfl
  | cons x xs ih =>
    cases b with
    | nil => right; rfl
    | cons y ys =>
      rcases lt_trichotomy x y with h | h | h
      · left; simp [charListLe, h]
      · subst h
        rcases ih ys with h2 | h2
        · left; simp [charListLe, lt_irrefl, h2]
        · right; simp [charListLe, lt_irrefl, h2]
      · right; simp [charListLe, h]

/-- Lexicographic comparison is antisymmetric. -/
theorem charListLe_antisymm : ∀ {a b : List Char},
    charListLe a b = true → charListLe b a = true → a = b := by
  intro a
  induction a with
  | nil =>
    intro b _ h2
    cases b with
    | nil => rfl
    | cons y ys => simp [charListLe] at h2
  | cons x xs ih =>
    intro b h1 h2
    cases b with
    | nil => simp [charListLe] at h1
    | cons y ys =>
      rcases lt_trichotomy x y with h | h | h
      · simp [charListLe, h, lt_asymm h] at h2
      · subst h
        simp only [charListLe, lt_irrefl, if_false] at h1 h2
        rw [ih h1 h2]
      · simp [charListLe, h, lt_asymm h] at h1

/-- Totality of `strLe`. -/
theorem strLe_total (a b : String) : strLe a b = true ∨ strLe b a = true :=
  charListLe_total a.data b.data

/-- Antisymmetry of `strLe`. -/
theorem strLe_antisymm {a b : String} (h1 : strLe a b = true)
    (h2 : strLe b a = true) : a = b := by
  cases a with
  | mk da =>
    cases b with
    | mk db =>
      have : da = db := charListLe_antisymm h1 h2
      rw [this]

/-- Symmetry of `sortPair` in its arguments. -/
theorem sortPair_comm (a b : String) : sortPair a b = sortPair b a := by
  unfold sortPair
  by_cases h1 : strLe a b = true
  · by_cases h2 : strLe b a = true
    · have : a = b := strLe_antisymm h1 h2
      subst this; rfl
    · rw [if_pos h1, if_neg (by simp [h2])]
  · by_cases h2 : strLe b a = true
    · rw [if_neg (by simp [h1]), if_pos h2]
    · rcases strLe_total a b with h | h
      · exact absurd h h1
      · exact absurd h h2

/-- The canonical key is symmetric in its arguments. -/
theorem canonicalKey_swap (a b : String) : canonicalKey a b = canonicalKey b a := by
  unfold canonicalKey
  rw [sortPair_comm]

/-- Case split: `sortPair` returns the input pair in one of its two orders. -/
theorem sortPair_cases (a b : String) :
    sortPair a b = (a, b) ∨ sortPair a b = (b, a) := by
  unfold sortPair
  split
  · left; rfl
  · right; rfl

/-- Looking up the key just written returns the written record. -/
theorem cacheGet_add_self (cache : ChatCache) (a b : String) (v : PrivateChat) :
    getFromPrivateChatCache (addToPrivateChatCache cache a b v) a b = some v := by
  simp [getFromPrivateChatCache, addToPrivateChatCache, cacheGet]

/-- Looking up with the arguments swapped also returns the written record,
because both orders derive the same key. -/
theorem cacheGet_add_swap (cache : ChatCache) (a b : String) (v : PrivateChat) :
    getFromPrivateChatCache (addToPrivateChatCache cache a b v) b a = some v := by
  unfold getFromPrivateChatCache
  rw [canonicalKey_swap b a]
  exact cacheGet_add_self cache a b v

/-- Appending lists around a separator character absent from both prefixes is
injective. -/
theorem sep_append_inj : ∀ {x x' y y' : List Char},
    '_' ∉ x → '_' ∉ x' → x ++ '_' :: y = x' ++ '_' :: y' → x = x' ∧ y = y' := by
  intro x
  induction x with
  | nil =>
    intro x' y y' _ hx' h
    cases x' with
    | nil => simpa using h
    | cons c cs =>
      simp only [List.nil_append, List.cons_append, List.cons.injEq] at h
      exact absurd (h.1 ▸ List.mem_cons_self c cs) hx'
  | cons c cs ih =>
    intro x' y y' hx hx' h
    cases x' with
    | nil =>
      simp only [List.nil_append, List.cons_append, List.cons.injEq] at h
      exact absurd (h.1.symm ▸ List.mem_cons_self c cs) hx
    | cons c' cs' =>
      simp only [List.cons_append, List.cons.injEq] at h
      obtain ⟨rfl, h2⟩ := h
      have hr := ih (fun hm => hx (List.mem_cons_of_mem _ hm))
        (fun hm => hx' (List.mem_cons_of_mem _ hm)) h2
      exact ⟨by rw [hr.1], hr.2⟩

/-- Two keys built from separator-free parts agree only part-wise. -/
theorem key_eq_parts {x y x' y' : String}
    (hx : '_' ∉ x.data) (hx' : '_' ∉ x'.data)
    (h : x ++ "_" ++ y = x' ++ "_" ++ y') : x = x' ∧ y = y' := by
  have hdata : x.data ++ '_' :: y.data = x'.data ++ '_' :: y'.data := by
    have h2 := congrArg String.data h
    simpa [List.append_assoc] using h2
  have hr := sep_append_inj hx hx' hdata
  refine ⟨?_, ?_⟩
  · cases x; cases x'; exact congrArg String.mk hr.1
  · cases y; cases y'; exact congrArg String.mk hr.2

/-! ## Claim theorems -/

/-- C1: the canonical conversation key is order-independent — for every pair
of participant id strings, computing the key from (a, b) yields the same key
as computing it from (b, a); in particular the key for ("U2", "U1") and for
("U1", "U2") both equal "U1_U2". -/
theorem canonicalKey_order_independent :
    (∀ a b : String, canonicalKey a b = canonicalKey b a) ∧
    canonicalKey "U2" "U1" = "U1_U2" ∧ canonicalKey "U1" "U2" = "U1_U2" :=
  ⟨canonicalKey_swap, by decide, by decide⟩

/-- C5: for participant ids that do not contain the separator character, two
unordered pairs map to the same canonical key only when they are the same
unordered pair. -/
theorem canonicalKey_unordered_pair_inj {a b c d : String}
    (ha : '_' ∉ a.data) (hb : '_' ∉ b.data)
    (hc : '_' ∉ c.data) (hd : '_' ∉ d.data)
    (h : canonicalKey a b = canonicalKey c d) :
    (a = c ∧ b = d) ∨ (a = d ∧ b = c) := by
  unfold canonicalKey at h
  rcases sortPair_cases a b with h1 | h1 <;> rcases sortPair_cases c d with h2 | h2 <;>
    simp only [h1, h2] at h
  · exact Or.inl (key_eq_parts ha hc h)
  · exact Or.inr (key_eq_parts ha hd h)
  · obtain ⟨e1, e2⟩ := key_eq_parts hb hc h
    exact Or.inr ⟨e2, e1⟩
  · obtain ⟨e1, e2⟩ := key_eq_parts hb hd h
    exact Or.inl ⟨e2, e1⟩

/-- Witness for C5 at a concrete input: the pairs ("U1", "U2") and
("U2", "U1") share the key "U1_U2" and are indeed the same unordered pair. -/
theorem canonicalKey_unordered_pair_inj_witness :
    ('_' ∉ "U1".data) ∧ ('_' ∉ "U2".data) ∧
    canonicalKey "U1" "U2" = canonicalKey "U2" "U1" ∧
    (("U1" = "U2" ∧ "U2" = "U1") ∨ ("U1" = "U1" ∧ "U2" = "U2")) :=
  ⟨by decide, by decide, by decide,
    @canonicalKey_unordered_pair_inj "U1" "U2" "U2" "U1"
      (by decide) (by decide) (by decide) (by decide) (by decide)⟩

/-- A pair absent from a chat list makes the store's filtered select empty. -/
theorem no_chat_filter {l : List PrivateChat} {p1 p2 : String}
    (h : ∀ c ∈ l, ¬(c.user_id1 = p1 ∧ c.user_id2 = p2)) :
    l.filter (fun c => c.user_id1 == p1 && c.user_id2 == p2) = [] := by
  rw [List.filter_eq_nil_iff]
  intro c hc
  simp only [Bool.and_eq_true, beq_iff_eq]
  exact h c hc

/-- Sortedness of `sortPair`: its first component compares at most its
second. -/
theorem sortPair_sorted (a b : String) :
    strLe (sortPair a b).1 (sortPair a b).2 = true := by
  unfold sortPair
  by_cases h : strLe a b = true
  · simp [h]
  · rcases strLe_total a b with h2 | h2
    · exact absurd h2 h
    · simp [h, h2]

/-- Full characterisation of a cache-and-store miss: the resolver inserts
the canonical pair, caches it, and returns it, at the cost of exactly one
store query and one store insertion. -/
theorem resolve_miss_creates {s : Session} {a b : String}
    (hcache : getFromPrivateChatCache s.cache a b = none)
    (hchats : s.chats.filter
      (fun c => c.user_id1 == (sortPair a b).1 && c.user_id2 == (sortPair a b).2) = [])
    (hf : s.fetchFailure = none) (hi : s.insertFailure = none)
    (hp : s.pendingConcurrent = none) :
    fetchOrCreatePrivateChat s a b =
      (Except.ok
        { id := s.nextId, user_id1 := (sortPair a b).1, user_id2 := (sortPair a b).2 },
       { s with
         cache := addToPrivateChatCache s.cache a b
           { id := s.nextId, user_id1 := (sortPair a b).1, user_id2 := (sortPair a b).2 },
         chats := s.chats ++
           [{ id := s.nextId, user_id1 := (sortPair a b).1, user_id2 := (sortPair a b).2 }],
         nextId := s.nextId + 1,
         fetchCount := s.fetchCount + 1,
         insertCount := s.insertCount + 1 }) := by
  have hfetch : fetchPrivateChat s a b =
      (Except.ok none, { s with fetchCount := s.fetchCount + 1 }) := by
    unfold fetchPrivateChat storeFetch
    simp [hf, hchats]
  have hcreate : createPrivateChat { s with fetchCount := s.fetchCount + 1 } a b =
      (Except.ok
        { id := s.nextId, user_id1 := (sortPair a b).1, user_id2 := (sortPair a b).2 },
       { s with
         chats := s.chats ++
           [{ id := s.nextId, user_id1 := (sortPair a b).1, user_id2 := (sortPair a b).2 }],
         nextId := s.nextId + 1,
         fetchCount := s.fetchCount + 1,
         insertCount := s.insertCount + 1 }) := by
    unfold createPrivateChat storeInsert
    simp [hp, hi]
  unfold fetchOrCreatePrivateChat
  simp only [hcache, hfetch, hcreate]

/-- A successful resolution leaves the resolved chat in the cache under the
pair's key. -/
theorem resolve_caches {s : Session} {a b : String} {c : PrivateChat} {s1 : Session}
    (h : fetchOrCreatePrivateChat s a b = (Except.ok c, s1)) :
    getFromPrivateChatCache s1.cache a b = some c := by
  unfold fetchOrCreatePrivateChat at h
  split at h
  · rename_i cached heq
    simp only [Prod.mk.injEq, Except.ok.injEq] at h
    obtain ⟨rfl, rfl⟩ := h
    exact heq
  · rename_i heq
    split at h
    · simp at h
    · rename_i chat s' hfp
      simp only [Prod.mk.injEq, Except.ok.injEq] at h
      obtain ⟨rfl, rfl⟩ := h
      exact cacheGet_add_self _ a b _
    · rename_i s' hfp
      split at h
      · simp at h
      · rename_i chat s'' hcp
        simp only [Prod.mk.injEq, Except.ok.injEq] at h
        obtain ⟨rfl, rfl⟩ := h
        exact cacheGet_add_self _ a b _

/-- A resolution whose pair is already cached returns the cached record and
leaves the session untouched. -/
theorem resolve_from_cache {s1 : Session} {a b : String} {c : PrivateChat}
    (h : getFromPrivateChatCache s1.cache a b = some c) :
    fetchOrCreatePrivateChat s1 a b = (Except.ok c, s1) := by
  unfold fetchOrCreatePrivateChat
  rw [h]

/-- C3: idempotent resolution — if resolving (a, b) succeeds, resolving the
same pair again with no intervening store mutation returns the same record
and leaves the session unchanged: the second call performs no store query
and no store insertion (it is answered from the cache alone). -/
theorem resolve_idempotent {s : Session} {a b : String} {c : PrivateChat} {s1 : Session}
    (h : fetchOrCreatePrivateChat s a b = (Except.ok c, s1)) :
    fetchOrCreatePrivateChat s1 a b = (Except.ok c, s1) ∧
    (fetchOrCreatePrivateChat s1 a b).2.fetchCount = s1.fetchCount ∧
    (fetchOrCreatePrivateChat s1 a b).2.insertCount = s1.insertCount := by
  have E := resolve_from_cache (resolve_caches h)
  exact ⟨E, by rw [E], by rw [E]⟩

/-- Witness for C3: resolving ("U1", "U2") twice from a fresh session gives
chat 0 both times, and the second call changes nothing. -/
theorem resolve_idempotent_witness :
    fetchOrCreatePrivateChat emptySession "U1" "U2" =
      (Except.ok { id := 0, user_id1 := "U1", user_id2 := "U2" }, sessionAfterFirst) ∧
    fetchOrCreatePrivateChat sessionAfterFirst "U1" "U2" =
      (Except.ok { id := 0, user_id1 := "U1", user_id2 := "U2" }, sessionAfterFirst) :=
  ⟨rfl,
    (@resolve_idempotent emptySession "U1" "U2"
      { id := 0, user_id1 := "U1", user_id2 := "U2" } sessionAfterFirst rfl).1⟩

/-- C2: cross-order cache sharing — from an empty cache and a store holding
no conversation for the unordered pair, resolving (a, b) and then (b, a)
returns the identical conversation record on both calls, with exactly one
store insertion in total (the second call leaves the session unchanged). -/
theorem resolve_cross_order_shares {s : Session} {a b : String}
    (hcache : s.cache = [])
    (hchats : ∀ c ∈ s.chats, ¬(c.user_id1 = (sortPair a b).1 ∧ c.user_id2 = (sortPair a b).2))
    (hf : s.fetchFailure = none) (hi : s.insertFailure = none)
    (hp : s.pendingConcurrent = none) :
    ∃ conv : PrivateChat,
      (fetchOrCreatePrivateChat s a b).1 = Except.ok conv ∧
      fetchOrCreatePrivateChat (fetchOrCreatePrivateChat s a b).2 b a =
        (Except.ok conv, (fetchOrCreatePrivateChat s a b).2) ∧
      (fetchOrCreatePrivateChat s a b).2.insertCount = s.insertCount + 1 := by
  have hcache' : getFromPrivateChatCache s.cache a b = none := by
    rw [hcache]; rfl
  have E := resolve_miss_creates hcache' (no_chat_filter hchats) hf hi hp
  refine ⟨{ id := s.nextId, user_id1 := (sortPair a b).1, user_id2 := (sortPair a b).2 },
    by rw [E], ?_, by rw [E]⟩
  rw [E]
  exact resolve_from_cache (cacheGet_add_swap s.cache a b _)

/-- Witness for C2: resolving ("U2", "U1") then ("U1", "U2") from a fresh
session shares one created conversation. -/
theorem resolve_cross_order_shares_witness :
    ∃ conv : PrivateChat,
      (fetchOrCreatePrivateChat emptySession "U2" "U1").1 = Except.ok conv ∧
      fetchOrCreatePrivateChat (fetchOrCreatePrivateChat emptySession "U2" "U1").2 "U1" "U2" =
        (Except.ok conv, (fetchOrCreatePrivateChat emptySession "U2" "U1").2) ∧
      (fetchOrCreatePrivateChat emptySession "U2" "U1").2.insertCount =
        emptySession.insertCount + 1 :=
  @resolve_cross_order_shares emptySession "U2" "U1" rfl (by decide) rfl rfl rfl

/-- C4: creation-on-miss — with an empty cache and no stored conversation
for the pair, resolving (a, b) performs exactly one store insertion, and
the stored and returned participant pair is the canonical lexicographically
sorted pair of (a, b). -/
theorem resolve_creation_on_miss {s : Session} {a b : String}
    (hcache : s.cache = [])
    (hchats : ∀ c ∈ s.chats, ¬(c.user_id1 = (sortPair a b).1 ∧ c.user_id2 = (sortPair a b).2))
    (hf : s.fetchFailure = none) (hi : s.insertFailure = none)
    (hp : s.pendingConcurrent = none) :
    (fetchOrCreatePrivateChat s a b).1 =
      Except.ok { id := s.nextId, user_id1 := (sortPair a b).1, user_id2 := (sortPair a b).2 } ∧
    (fetchOrCreatePrivateChat s a b).2.chats =
      s.chats ++ [{ id := s.nextId, user_id1 := (sortPair a b).1, user_id2 := (sortPair a b).2 }] ∧
    (fetchOrCreatePrivateChat s a b).2.insertCount = s.insertCount + 1 ∧
    strLe (sortPair a b).1 (sortPair a b).2 = true := by
  have hcache' : getFromPrivateChatCache s.cache a b = none := by
    rw [hcache]; rfl
  have E := resolve_miss_creates hcache' (no_chat_filter hchats) hf hi hp
  exact ⟨by rw [E], by rw [E], by rw [E], sortPair_sorted a b⟩

/-- Witness for C4: resolving ("U1", "U2") from a fresh session inserts and
returns the sorted pair with id 0. -/
theorem resolve_creation_on_miss_witness :
    (fetchOrCreatePrivateChat emptySession "U1" "U2").1 =
      Except.ok { id := emptySession.nextId, user_id1 := (sortPair "U1" "U2").1,
                  user_id2 := (sortPair "U1" "U2").2 } ∧
    (fetchOrCreatePrivateChat emptySession "U1" "U2").2.chats =
      emptySession.chats ++ [{ id := emptySession.nextId,
                               user_id1 := (sortPair "U1" "U2").1,
                               user_id2 := (sortPair "U1" "U2").2 }] ∧
    (fetchOrCreatePrivateChat emptySession "U1" "U2").2.insertCount =
      emptySession.insertCount + 1 ∧
    strLe (sortPair "U1" "U2").1 (sortPair "U1" "U2").2 = true :=
  @resolve_creation_on_miss emptySession "U1" "U2" rfl (by decide) rfl rfl rfl

/-- C6 counterexample: in the §5 race, the creation request fails while the
concurrently created conversation for the pair IS present in the store — a
re-query would return it — yet the resolver performed only the single
initial query (`fetchCount = 1`) and propagated the error instead of
re-querying and returning the now-present conversation. -/
theorem create_failure_no_requery_cex :
    (fetchOrCreatePrivateChat raceSession "U1" "U2").1 = Except.error "duplicate key" ∧
    ((fetchOrCreatePrivateChat raceSession "U1" "U2").2.chats.filter
      (fun c => c.user_id1 == "U1" && c.user_id2 == "U2")).head? =
      some { id := 7, user_id1 := "U1", user_id2 := "U2" } ∧
    (fetchOrCreatePrivateChat raceSession "U1" "U2").2.fetchCount = 1 :=
  ⟨rfl, rfl, rfl⟩

/-- C6 (amended): when the resolver finds no cached and no stored
conversation for the pair and the store's creation request fails, it
propagates the error immediately — exactly one store query is ever
performed (no re-query), and the cache is untouched. -/
theorem create_failure_propagates {s : Session} {a b e : String}
    (hcache : getFromPrivateChatCache s.cache a b = none)
    (hchats : s.chats.filter
      (fun c => c.user_id1 == (sortPair a b).1 && c.user_id2 == (sortPair a b).2) = [])
    (hf : s.fetchFailure = none)
    (hi : s.insertFailure = some e) :
    (fetchOrCreatePrivateChat s a b).1 = Except.error e ∧
    (fetchOrCreatePrivateChat s a b).2.fetchCount = s.fetchCount + 1 ∧
    (fetchOrCreatePrivateChat s a b).2.cache = s.cache := by
  have hfetch : fetchPrivateChat s a b =
      (Except.ok none, { s with fetchCount := s.fetchCount + 1 }) := by
    unfold fetchPrivateChat storeFetch
    simp [hf, hchats]
  cases hp : s.pendingConcurrent with
  | none =>
    have E : fetchOrCreatePrivateChat s a b =
        (Except.error e,
         { s with fetchCount := s.fetchCount + 1, insertCount := s.insertCount + 1 }) := by
      unfold fetchOrCreatePrivateChat createPrivateChat storeInsert
      simp only [hcache, hfetch]
      simp [hp, hi]
    rw [E]
    exact ⟨rfl, rfl, rfl⟩
  | some c =>
    have E : fetchOrCreatePrivateChat s a b =
        (Except.error e,
         { s with chats := s.chats ++ [c], pendingConcurrent := none,
                  fetchCount := s.fetchCount + 1, insertCount := s.insertCount + 1 }) := by
      unfold fetchOrCreatePrivateChat createPrivateChat storeInsert
      simp only [hcache, hfetch]
      simp [hp, hi]
    rw [E]
    exact ⟨rfl, rfl, rfl⟩

/-- Witness for C6 (amended) in the race scenario: the resolver surfaces
the "duplicate key" error after exactly one query, cache untouched. -/
theorem create_failure_propagates_witness :
    getFromPrivateChatCache raceSession.cache "U1" "U2" = none ∧
    raceSession.insertFailure = some "duplicate key" ∧
    (fetchOrCreatePrivateChat raceSession "U1" "U2").1 = Except.error "duplicate key" ∧
    (fetchOrCreatePrivateChat raceSession "U1" "U2").2.fetchCount =
      raceSession.fetchCount + 1 ∧
    (fetchOrCreatePrivateChat raceSession "U1" "U2").2.cache = raceSession.cache :=
  ⟨rfl, rfl,
    @create_failure_propagates raceSession "U1" "U2" "duplicate key" rfl rfl rfl rfl⟩

/-- C7 counterexample: the empty identifier is not rejected — the code's
key computation produces the key "_U1" where the spec's Canonicalizer
demands an InvalidArgument failure, and the resolver proceeds all the way
to a successful resolution with an empty participant field. -/
theorem empty_id_key_cex :
    canonicalKey "" "U1" = "_U1" ∧
    canonicalKeySpec "" "U1" = Except.error "InvalidArgument" ∧
    (fetchOrCreatePrivateChat emptySession "" "U1").1 =
      Except.ok { id := 0, user_id1 := "", user_id2 := "U1" } :=
  ⟨rfl, rfl, rfl⟩

/-- C7 (amended): the canonical-key computation performs no validation —
for every identifier b the empty identifier is accepted, yielding the key
"_" ++ b, and from a fresh session the resolver proceeds to create a
conversation whose first participant field is empty. -/
theorem empty_id_accepted (b : String) :
    canonicalKey "" b = "_" ++ b ∧
    ∃ c : PrivateChat,
      (fetchOrCreatePrivateChat emptySession "" b).1 = Except.ok c ∧ c.user_id1 = "" :=
  ⟨rfl, ⟨{ id := 0, user_id1 := "", user_id2 := b }, rfl, rfl⟩⟩

/-- C8 counterexample: a private-chat message callback that throws is not
contained — the exception escapes the handler `subscribeToNewPrivateChatMessages`
registers on the realtime channel, while the posts handler contains the
same exception. -/
theorem private_chat_callback_escape_cex :
    privateChatMessagesHandler
      (fun _ : PrivateChatMessage => Except.error "boom")
      { chat_id := 1, sender_id := "U1", content := "hello" } = Except.error "boom" ∧
    subscribeToNewPostsHandler
      (fun _ : PrivateChatMessage => Except.error "boom")
      { chat_id := 1, sender_id := "U1", content := "hello" } = Except.ok () :=
  ⟨rfl, rfl⟩

/-- C8 (amended): only the posts subscription isolates callback exceptions;
the private-chat message handler forwards the callback's outcome unchanged,
so an exception thrown there escapes the handler. -/
theorem callback_isolation_amended {α : Type} (callback : α → Except String Unit)
    (payloadNew : α) :
    subscribeToNewPostsHandler callback payloadNew = Except.ok () ∧
    privateChatMessagesHandler callback payloadNew = callback payloadNew := by
  constructor
  · cases hcb : callback payloadNew <;> simp [subscribeToNewPostsHandler, hcb]
  · rfl

/-- C9: an empty result is success — whenever the conversation for (a, b)
resolves successfully, the message query does not fail, and the store holds
no message for the resolved chat, fetching the recent messages returns the
empty list as a successful result; and any error the fetch does return
stems from the resolution or from the message query itself. -/
theorem fetch_empty_messages_ok :
    (∀ (s s1 : Session) (a b : String) (chat : PrivateChat),
      fetchOrCreatePrivateChat s a b = (Except.ok chat, s1) →
      s1.messagesFetchFailure = none →
      (∀ m ∈ s1.messages, m.chat_id ≠ chat.id) →
      (fetchLastPrivateChatMessages s a b).1 = Except.ok []) ∧
    (∀ (s : Session) (a b e : String),
      (fetchLastPrivateChatMessages s a b).1 = Except.error e →
      (fetchOrCreatePrivateChat s a b).1 = Except.error e ∨
      (fetchOrCreatePrivateChat s a b).2.messagesFetchFailure = some e) := by
  constructor
  · intro s s1 a b chat hres hq hnone
    have hfil : s1.messages.filter (fun m => m.chat_id == chat.id) = [] := by
      rw [List.filter_eq_nil_iff]
      intro m hm
      simp only [beq_iff_eq]
      exact hnone m hm
    unfold fetchLastPrivateChatMessages
    simp only [hres, hq, hfil]
  · intro s a b e h
    rcases hre : fetchOrCreatePrivateChat s a b with ⟨r, t⟩
    cases r with
    | error e1 =>
      unfold fetchLastPrivateChatMessages at h
      simp only [hre] at h
      simp only [Except.error.injEq] at h
      left
      show Except.error e1 = Except.error e
      rw [h]
    | ok chat =>
      unfold fetchLastPrivateChatMessages at h
      simp only [hre] at h
      cases hm : t.messagesFetchFailure with
      | none => simp [hm] at h
      | some e1 =>
        simp only [hm] at h
        right
        simp only [Except.error.injEq] at h
        rw [h]

/-- Witness for C9: after resolving ("U1", "U2") from a fresh session there
are no messages, and the fetch returns `ok []`. -/
theorem fetch_empty_messages_ok_witness :
    fetchOrCreatePrivateChat emptySession "U1" "U2" =
      (Except.ok { id := 0, user_id1 := "U1", user_id2 := "U2" }, sessionAfterFirst) ∧
    sessionAfterFirst.messagesFetchFailure = none ∧
    (∀ m ∈ sessionAfterFirst.messages,
      m.chat_id ≠ ({ id := 0, user_id1 := "U1", user_id2 := "U2" } : PrivateChat).id) ∧
    (fetchLastPrivateChatMessages emptySession "U1" "U2").1 = Except.ok [] :=
  ⟨rfl, rfl, by decide,
    fetch_empty_messages_ok.1 emptySession sessionAfterFirst "U1" "U2"
      { id := 0, user_id1 := "U1", user_id2 := "U2" } rfl rfl (by decide)⟩

/-- A store query never touches the cache. -/
theorem storeFetch_cache (s : Session) (u1 u2 : String) :
    (storeFetch s u1 u2).2.cache = s.cache := by
  unfold storeFetch
  cases h : s.fetchFailure <;> simp [h]

/-- A store insert never touches the cache. -/
theorem storeInsert_cache (s : Session) (u1 u2 : String) :
    (storeInsert s u1 u2).2.cache = s.cache := by
  unfold storeInsert
  cases hp : s.pendingConcurrent <;> cases hi : s.insertFailure <;> simp [hp, hi]

/-- C10: cache atomicity on resolver failure — if resolving (a, b) fails,
because the store lookup or the store creation throws, the directory cache
is left exactly as it was: no entry is added for the pair's key. -/
theorem resolve_error_cache_unchanged {s : Session} {a b : String} {e : String}
    (h : (fetchOrCreatePrivateChat s a b).1 = Except.error e) :
    (fetchOrCreatePrivateChat s a b).2.cache = s.cache := by
  cases hg : getFromPrivateChatCache s.cache a b with
  | some c =>
    have E : fetchOrCreatePrivateChat s a b = (Except.ok c, s) := by
      unfold fetchOrCreatePrivateChat
      simp only [hg]
    rw [E] at h
    simp at h
  | none =>
    rcases hfp : fetchPrivateChat s a b with ⟨r1, s1⟩
    have hc1 : s1.cache = s.cache := by
      have h2 := storeFetch_cache s (sortPair a b).1 (sortPair a b).2
      unfold fetchPrivateChat at hfp
      rw [hfp] at h2
      exact h2
    cases r1 with
    | error e1 =>
      have E : fetchOrCreatePrivateChat s a b = (Except.error e1, s1) := by
        unfold fetchOrCreatePrivateChat
        simp only [hg, hfp]
      rw [E]
      exact hc1
    | ok ores =>
      cases ores with
      | some chat =>
        have E : fetchOrCreatePrivateChat s a b =
            (Except.ok chat,
             { s1 with cache := addToPrivateChatCache s1.cache a b chat }) := by
          unfold fetchOrCreatePrivateChat
          simp only [hg, hfp]
        rw [E] at h
        simp at h
      | none =>
        rcases hcp : createPrivateChat s1 a b with ⟨r2, s2⟩
        have hc2 : s2.cache = s1.cache := by
          have h2 := storeInsert_cache s1 (sortPair a b).1 (sortPair a b).2
          unfold createPrivateChat at hcp
          rw [hcp] at h2
          exact h2
        cases r2 with
        | error e2 =>
          have E : fetchOrCreatePrivateChat s a b = (Except.error e2, s2) := by
            unfold fetchOrCreatePrivateChat
            simp only [hg, hfp, hcp]
          rw [E]
          rw [hc2, hc1]
        | ok chat =>
          have E : fetchOrCreatePrivateChat s a b =
              (Except.ok chat,
               { s2 with cache := addToPrivateChatCache s2.cache a b chat }) := by
            unfold fetchOrCreatePrivateChat
            simp only [hg, hfp, hcp]
          rw [E] at h
          simp at h

/-- Witness for C10: a failing store lookup leaves the cache unchanged. -/
theorem resolve_error_cache_unchanged_witness :
    (fetchOrCreatePrivateChat failSession "U1" "U2").1 = Except.error "net down" ∧
    (fetchOrCreatePrivateChat failSession "U1" "U2").2.cache = failSession.cache :=
  ⟨rfl, @resolve_error_cache_unchanged failSession "U1" "U2" "net down" rfl⟩
